import Mathlib

set_option maxRecDepth 4000

/-!
Shallow embedding of the token-lifecycle core of the auth-user-management
service: token service, token-blacklist service (Redis-backed revocation
cache with grace markers), fingerprint service, and the auth service
(login, failed-login lockout, refresh rotation, logout, revocation).

Conventions of the embedding:
* Time is a natural number of milliseconds (`Date.now()`); Redis TTLs and
  JWT `exp` fields are in seconds, obtained as `nowMs / 1000`
  (`Math.floor(Date.now() / 1000)`).
* A JWT is modelled symbolically by the structure `Tok` holding its claims,
  its expiry, its unique id (`jwtid`) and the secret that signed it;
  signature verification is comparison of that secret.
* Strings derived from tokens form the term algebra `TokText`: the raw
  compact serialization of a token, or a SHA-256 digest of such a string.
  This keeps hashing one-way and deterministic while staying executable.
* Redis is a key/value store with per-key expiry; an `up` flag models
  reachability, and an unreachable cache makes operations fail, which the
  service code catches (fail-open) exactly as the source does.
* Database writes (Prisma) are list updates on the `users` and
  `refresh_tokens` tables held in the state `St`; audit-service calls
  append `AuditEvent`s; `console.error` messages append to `errors`.
-/

namespace Auth

/-- Claims carried by a signed token (`TokenPayload` plus `exp`, `jwtid`
and the signing secret, which models the signature). -/
structure Tok where
  userId : String
  email : String
  role : String
  exp : Nat
  jti : Nat
  secret : String
deriving DecidableEq, Repr

/-- Strings the program derives from tokens: the raw JWT compact
serialization, or a SHA-256 hex digest of such a string. -/
inductive TokText where
  | raw (t : Tok)
  | sha256 (s : TokText)
deriving DecidableEq, Repr

/-- The payload handed to the token generators. -/
structure TokenPayload where
  userId : String
  email : String
  role : String
deriving DecidableEq, Repr

def ACCESS_TOKEN_SECRET : String := "ACCESS_TOKEN_SECRET"

def REFRESH_TOKEN_SECRET : String := "REFRESH_TOKEN_SECRET"

/-- `tokenService.generateAccessToken`: 15-minute expiry, fresh `jwtid`. -/
def generateAccessToken (p : TokenPayload) (nowMs : Nat) (jti : Nat) : Tok :=
  ⟨p.userId, p.email, p.role, nowMs / 1000 + 15 * 60, jti, ACCESS_TOKEN_SECRET⟩

/-- `tokenService.generateRefreshToken`: 7-day expiry, fresh `jwtid`. -/
def generateRefreshToken (p : TokenPayload) (nowMs : Nat) (jti : Nat) : Tok :=
  ⟨p.userId, p.email, p.role, nowMs / 1000 + 7 * 24 * 60 * 60, jti, REFRESH_TOKEN_SECRET⟩

/-- `tokenService.generateTokens`. -/
def generateTokens (p : TokenPayload) (nowMs : Nat) (jtiA jtiR : Nat) : Tok × Tok :=
  (generateAccessToken p nowMs jtiA, generateRefreshToken p nowMs jtiR)

/-- User-facing error taxonomy of the auth flows (`code` fields of the
thrown `AppError`s). -/
inductive AuthErr where
  | invalidCredentials
  | accountLocked (remainingMinutes : Nat)
  | accountInactive
  | refreshTokenExpired
  | refreshTokenInvalid
  | tokenReuseDetected
  | tokenNotFound
  | sessionNotFound
deriving DecidableEq, Repr

instance {ε α : Type} [DecidableEq ε] [DecidableEq α] : DecidableEq (Except ε α) :=
  fun x y =>
    match x, y with
    | .ok a, .ok b =>
        if h : a = b then .isTrue (congrArg Except.ok h)
        else .isFalse (fun hc => h (Except.ok.inj hc))
    | .error e, .error f =>
        if h : e = f then .isTrue (congrArg Except.error h)
        else .isFalse (fun hc => h (Except.error.inj hc))
    | .ok _, .error _ => .isFalse (fun hc => Except.noConfusion hc)
    | .error _, .ok _ => .isFalse (fun hc => Except.noConfusion hc)

/-- `jwt.decode`: reads the claims without checking the signature; a hex
digest is not a parseable JWT. -/
def jwtDecode : TokText → Option Tok
  | .raw t => some t
  | .sha256 _ => none

/-- `tokenService.verifyRefreshToken`: signature check against the refresh
secret, then expiry; distinct error kinds for the two failures. -/
def verifyRefreshToken (s : TokText) (nowMs : Nat) : Except AuthErr Tok :=
  match s with
  | .raw t =>
      if t.secret = REFRESH_TOKEN_SECRET then
        if t.exp ≤ nowMs / 1000 then .error .refreshTokenExpired else .ok t
      else .error .refreshTokenInvalid
  | .sha256 _ => .error .refreshTokenInvalid

/-- `tokenService.getRefreshTokenExpiry`: now plus 7 days in milliseconds. -/
def getRefreshTokenExpiry (nowMs : Nat) : Nat :=
  nowMs + 7 * 24 * 60 * 60 * 1000

/-- `hashToken`: SHA-256 digest used wherever a token value becomes a
storage or cache key. -/
def hashToken (s : TokText) : TokText := .sha256 s

/-- Redis keys built by the blacklist service: the three key namespaces
(`blacklist:refresh:`, `grace:refresh:`, `blacklist:access:`) each followed
by a hashed-token hex digest. -/
inductive RKey where
  | refreshBlack (h : TokText)
  | grace (h : TokText)
  | accessBlack (h : TokText)
deriving DecidableEq, Repr

/-- The revocation cache: value and absolute expiry (seconds) per key, and
an `up` flag modelling reachability. -/
structure Cache where
  store : RKey → Option (String × Nat)
  up : Bool

/-- `redis.set key value EX ttl`: fails when the cache is unreachable. -/
def redisSet (c : Cache) (k : RKey) (v : String) (ttlSec nowSec : Nat) :
    Except Unit Cache :=
  if c.up then
    .ok { c with store := fun k' => if k' = k then some (v, nowSec + ttlSec) else c.store k' }
  else .error ()

/-- `redis.exists key`: 1 when the key is present and unexpired. -/
def redisExists (c : Cache) (k : RKey) (nowSec : Nat) : Except Unit Bool :=
  if c.up then
    .ok (match c.store k with
         | some (_, e) => decide (nowSec < e)
         | none => false)
  else .error ()

/-- A row of the `users` table (the lockout-relevant columns). -/
structure UserRow where
  id : String
  email : String
  password : String
  name : Option String
  role : String
  isActive : Bool
  failedLoginAttempts : Nat
  lastFailedLogin : Option Nat
  lockoutUntil : Option Nat
deriving DecidableEq, Repr

/-- A row of the `refresh_tokens` table. -/
structure SessionRow where
  id : String
  userId : String
  token : TokText
  expiresAt : Nat
  isRevoked : Bool
  ipAddress : Option String
  userAgent : Option String
  fingerprint : Option String
  createdAt : Nat
deriving DecidableEq, Repr

/-- An audit-log record (action plus subject user). -/
structure AuditEvent where
  action : String
  actorUserId : Option String
deriving DecidableEq, Repr

/-- The observable state: both durable tables, the revocation cache, the
audit log and the console error log. -/
structure St where
  users : List UserRow
  rows : List SessionRow
  cache : Cache
  audit : List AuditEvent
  errors : List String

def GRACE_PERIOD_SECONDS : Nat := 10

/-- `getTtlFromToken`: remaining token lifetime in whole seconds, zero when
the token does not decode or is already expired. -/
def getTtlFromToken (s : TokText) (nowMs : Nat) : Nat :=
  match jwtDecode s with
  | none => 0
  | some t => t.exp - nowMs / 1000

/-- `tokenBlacklistService.addRefreshToken` (also its legacy alias `add`):
durable blacklist marker keyed by the hashed token, TTL the remaining
lifetime; a cache failure is caught and logged. -/
def addRefreshToken (st : St) (token : TokText) (nowMs : Nat) : St :=
  let ttl := getTtlFromToken token nowMs
  if ttl = 0 then st
  else
    match redisSet st.cache (.refreshBlack (hashToken token)) "1" ttl (nowMs / 1000) with
    | .ok c => { st with cache := c }
    | .error _ => { st with errors := st.errors ++ ["Failed to add refresh token to blacklist:"] }

/-- `tokenBlacklistService.addRefreshTokenWithGrace`: durable marker plus a
short-lived grace marker; cache failures are caught and logged. -/
def addRefreshTokenWithGrace (st : St) (token : TokText) (nowMs : Nat) : St :=
  let ttl := getTtlFromToken token nowMs
  if ttl = 0 then st
  else
    match redisSet st.cache (.refreshBlack (hashToken token)) "1" ttl (nowMs / 1000) with
    | .error _ => { st with errors := st.errors ++ ["Failed to add refresh token with grace:"] }
    | .ok c1 =>
        match redisSet c1 (.grace (hashToken token)) "1" GRACE_PERIOD_SECONDS (nowMs / 1000) with
        | .ok c2 => { st with cache := c2 }
        | .error _ =>
            { st with cache := c1,
                      errors := st.errors ++ ["Failed to add refresh token with grace:"] }

/-- `tokenBlacklistService.isRefreshTokenBlacklisted` (legacy alias
`isBlacklisted`): false while the grace marker lives, otherwise the durable
marker's presence; a cache failure is caught, logged and reported as
not-blacklisted (fail open). -/
def isRefreshTokenBlacklisted (st : St) (token : TokText) (nowMs : Nat) : Bool × St :=
  match redisExists st.cache (.refreshBlack (hashToken token)) (nowMs / 1000),
        redisExists st.cache (.grace (hashToken token)) (nowMs / 1000) with
  | .ok b, .ok g => (if g then false else b, st)
  | _, _ => (false, { st with errors := st.errors ++ ["Failed to check refresh token blacklist:"] })

/-- `fingerprintService.generate`: SHA-256 of user-agent and IP joined by a
colon (missing fields default to the empty string). -/
def fingerprintGenerate (userAgent ipAddress : Option String) : String :=
  "sha256:" ++ userAgent.getD "" ++ ":" ++ ipAddress.getD ""

def LOCKOUT_maxAttempts : Nat := 5

def LOCKOUT_lockoutDurationMinutes : Nat := 15

def LOCKOUT_resetWindowMinutes : Nat := 30

/-- Symbolic bcrypt digest of a plaintext password. -/
def bcryptHashOf (plain : String) : String := "bcrypt$" ++ plain

/-- `bcrypt.compareSync(plain, stored)`. -/
def bcryptCompare (plain stored : String) : Bool := stored = bcryptHashOf plain

/-- `prisma.user.findUnique({ where: { email } })`. -/
def findUserByEmail (users : List UserRow) (email : String) : Option UserRow :=
  users.find? (fun u => decide (u.email = email))

/-- `prisma.user.update({ where: { id } })` with an update function. -/
def updateUserById (users : List UserRow) (id : String) (f : UserRow → UserRow) :
    List UserRow :=
  users.map (fun u => if u.id = id then f u else u)

/-- Whether the account-locked guard in `login` fires
(`user.lockoutUntil && user.lockoutUntil > new Date()`). -/
def lockActive (u : UserRow) (nowMs : Nat) : Bool :=
  match u.lockoutUntil with
  | some l => decide (nowMs < l)
  | none => false

/-- `AuthService.handleFailedLogin`: windowed failure counter, lockout once
the maximum is reached, audit records for the lock and the failure. -/
def handleFailedLogin (st : St) (user : UserRow) (nowMs : Nat) : St :=
  let base :=
    match user.lastFailedLogin with
    | some lf =>
        if LOCKOUT_resetWindowMinutes * 60000 < nowMs - lf then 0
        else user.failedLoginAttempts
    | none => user.failedLoginAttempts
  let failedAttempts := base + 1
  let lockedNow := LOCKOUT_maxAttempts ≤ failedAttempts
  let users' := updateUserById st.users user.id (fun u =>
    { u with failedLoginAttempts := failedAttempts,
             lastFailedLogin := some nowMs,
             lockoutUntil :=
               if lockedNow then some (nowMs + LOCKOUT_lockoutDurationMinutes * 60000)
               else u.lockoutUntil })
  { st with users := users',
            audit := st.audit
              ++ (if lockedNow then [⟨"ACCOUNT_LOCKED", some user.id⟩] else [])
              ++ [⟨"LOGIN_FAILED", some user.id⟩] }

/-- Successful-login payload: the user id and the fresh token pair. -/
structure LoginOk where
  userId : String
  accessToken : Tok
  refreshToken : Tok
deriving DecidableEq, Repr

/-- The part of `AuthService.login` after the lockout guard: password
check (failure routed through `handleFailedLogin`), active check, counter
reset on success, token pair issuance and the new session row. -/
def loginChecked (st : St) (user : UserRow) (password : String)
    (ipAddress userAgent : Option String) (nowMs jtiA jtiR : Nat) (rowId : String) :
    Except AuthErr LoginOk × St :=
  if bcryptCompare password user.password = false then
    (.error .invalidCredentials, handleFailedLogin st user nowMs)
  else if user.isActive = false then
    (.error .accountInactive,
     { st with audit := st.audit ++ [⟨"LOGIN_FAILED", some user.id⟩] })
  else
    let st1 :=
      if 0 < user.failedLoginAttempts then
        { st with users := updateUserById st.users user.id (fun u =>
            { u with failedLoginAttempts := 0, lockoutUntil := none,
                     lastFailedLogin := none }) }
      else st
    let fp := fingerprintGenerate userAgent ipAddress
    let pair := generateTokens ⟨user.id, user.email, user.role⟩ nowMs jtiA jtiR
    let row : SessionRow :=
      ⟨rowId, user.id, .raw pair.2, getRefreshTokenExpiry nowMs, false,
       ipAddress, userAgent, some fp, nowMs⟩
    (.ok ⟨user.id, pair.1, pair.2⟩,
     { st1 with rows := st1.rows ++ [row],
                audit := st1.audit ++ [⟨"LOGIN_SUCCESS", some user.id⟩] })

/-- `AuthService.login`: user lookup, lockout guard (with remaining-minutes
report), then the checked path. -/
def login (st : St) (email password : String) (ipAddress userAgent : Option String)
    (nowMs jtiA jtiR : Nat) (rowId : String) : Except AuthErr LoginOk × St :=
  match findUserByEmail st.users email with
  | none =>
      (.error .invalidCredentials,
       { st with audit := st.audit ++ [⟨"LOGIN_FAILED", none⟩] })
  | some user =>
      match user.lockoutUntil with
      | some l =>
          if nowMs < l then
            (.error (.accountLocked ((l - nowMs + 59999) / 60000)),
             { st with audit := st.audit ++ [⟨"LOGIN_FAILED", some user.id⟩] })
          else loginChecked st user password ipAddress userAgent nowMs jtiA jtiR rowId
      | none => loginChecked st user password ipAddress userAgent nowMs jtiA jtiR rowId

/-- `AuthService.revokeAllUserTokens`: read the active rows, mark them all
revoked with one `updateMany`, blacklist each previously active token, and
audit only when request metadata is present. -/
def revokeAllUserTokens (st : St) (userId : String) (ipAddress userAgent : Option String)
    (nowMs : Nat) : St :=
  let active := st.rows.filter (fun r => decide (r.userId = userId) && !r.isRevoked)
  let st1 := { st with rows := st.rows.map (fun r =>
    if r.userId = userId ∧ r.isRevoked = false then { r with isRevoked := true } else r) }
  let st2 := active.foldl (fun s r => addRefreshToken s r.token nowMs) st1
  if ipAddress.isSome || userAgent.isSome then
    { st2 with audit := st2.audit ++ [⟨"ALL_SESSIONS_REVOKED", some userId⟩] }
  else st2

/-- What `refreshTokens` has read before its first write: the decoded
claims and the stored session row. -/
structure RefreshCtx where
  decoded : Tok
  stored : SessionRow
deriving DecidableEq, Repr

/-- The read phase of `AuthService.refreshTokens` (everything up to and
including the stored-token check, i.e. up to the last suspension point
before the first state write of the rotation path): verify, blacklist
check with its reuse-detected branch, row lookup with its reuse-detected
branch. -/
def refreshPhase1 (st : St) (tokText : TokText) (nowMs : Nat) :
    Except AuthErr RefreshCtx × St :=
  match verifyRefreshToken tokText nowMs with
  | .error e => (.error e, st)
  | .ok decoded =>
      let res := isRefreshTokenBlacklisted st tokText nowMs
      if res.1 then
        let st2 := revokeAllUserTokens res.2 decoded.userId none none nowMs
        (.error .tokenReuseDetected,
         { st2 with audit := st2.audit ++ [⟨"TOKEN_REUSE_DETECTED", some decoded.userId⟩] })
      else
        match res.2.rows.find? (fun r => decide (r.token = tokText)) with
        | none =>
            let st2 := addRefreshToken res.2 tokText nowMs
            let st3 := revokeAllUserTokens st2 decoded.userId none none nowMs
            (.error .tokenReuseDetected,
             { st3 with audit := st3.audit ++ [⟨"TOKEN_REUSE_DETECTED", some decoded.userId⟩] })
        | some stored =>
            if stored.isRevoked then
              let st2 := addRefreshToken res.2 tokText nowMs
              let st3 := revokeAllUserTokens st2 decoded.userId none none nowMs
              (.error .tokenReuseDetected,
               { st3 with audit := st3.audit ++ [⟨"TOKEN_REUSE_DETECTED", some decoded.userId⟩] })
            else (.ok ⟨decoded, stored⟩, res.2)

/-- The write phase of `AuthService.refreshTokens`: generate the new pair,
mark the presented row revoked (an unconditional update keyed by the token
value), blacklist the old token with grace, create the new row inheriting
the stored row's metadata, audit the refresh. -/
def refreshPhase2 (st : St) (ctx : RefreshCtx) (tokText : TokText)
    (nowMs jtiA jtiR : Nat) (rowId : String) : (Tok × Tok) × St :=
  let pair := generateTokens ⟨ctx.decoded.userId, ctx.decoded.email, ctx.decoded.role⟩
    nowMs jtiA jtiR
  let st1 := { st with rows := st.rows.map (fun r =>
    if r.token = tokText then { r with isRevoked := true } else r) }
  let st2 := addRefreshTokenWithGrace st1 tokText nowMs
  let newRow : SessionRow :=
    ⟨rowId, ctx.decoded.userId, .raw pair.2, getRefreshTokenExpiry nowMs, false,
     ctx.stored.ipAddress, ctx.stored.userAgent, ctx.stored.fingerprint, nowMs⟩
  (pair,
   { st2 with rows := st2.rows ++ [newRow],
              audit := st2.audit ++ [⟨"TOKEN_REFRESH", some ctx.decoded.userId⟩] })

/-- `AuthService.refreshTokens`: the read phase followed, on success, by
the write phase. -/
def refreshTokens (st : St) (tokText : TokText) (nowMs jtiA jtiR : Nat)
    (rowId : String) : Except AuthErr (Tok × Tok) × St :=
  match refreshPhase1 st tokText nowMs with
  | (.error e, st') => (.error e, st')
  | (.ok ctx, st') =>
      let r := refreshPhase2 st' ctx tokText nowMs jtiA jtiR rowId
      (.ok r.1, r.2)

/-- `AuthService.logout`: row lookup by token, revoke, durable blacklist
(no grace), audit. -/
def logout (st : St) (tokText : TokText) (ipAddress userAgent : Option String)
    (nowMs : Nat) : Except AuthErr String × St :=
  match st.rows.find? (fun r => decide (r.token = tokText)) with
  | none => (.error .tokenNotFound, st)
  | some tokenRow =>
      let st1 := { st with rows := st.rows.map (fun r =>
        if r.token = tokText then { r with isRevoked := true } else r) }
      let st2 := addRefreshToken st1 tokText nowMs
      (.ok "Logged out successfully",
       { st2 with audit := st2.audit ++ [⟨"LOGOUT", some tokenRow.userId⟩] })

/-- `AuthService.revokeSession`: find the session by id and owner, revoke
it, blacklist its stored token, audit. -/
def revokeSession (st : St) (userId sessionId : String)
    (ipAddress userAgent : Option String) (nowMs : Nat) : Except AuthErr String × St :=
  match st.rows.find? (fun r => decide (r.id = sessionId) && decide (r.userId = userId)) with
  | none => (.error .sessionNotFound, st)
  | some session =>
      let st1 := { st with rows := st.rows.map (fun r =>
        if r.id = sessionId then { r with isRevoked := true } else r) }
      let st2 := addRefreshToken st1 session.token nowMs
      (.ok "Session has been revoked",
       { st2 with audit := st2.audit ++ [⟨"SESSION_REVOKED", some userId⟩] })

/-- Checks whether `needle` occurs at the head of `hay` (character-wise). -/
def leadsWith : List Char → List Char → Bool
  | [], _ => true
  | _ :: _, [] => false
  | a :: as, b :: bs => a == b && leadsWith as bs

/-- Substring containment on character lists (JS `String.includes`). -/
def containsSub (hay needle : List Char) : Bool :=
  leadsWith needle hay ||
    match hay with
    | [] => false
    | _ :: t => containsSub t needle

/-- JS `s.includes(sub)`. -/
def strIncludes (s sub : String) : Bool := containsSub s.data sub.data

/-- Splits a character list on a separator character, accumulator style. -/
def splitOnCharAux (sep : Char) : List Char → List Char → List (List Char)
  | [], acc => [acc.reverse]
  | c :: cs, acc =>
      if c == sep then acc.reverse :: splitOnCharAux sep cs []
      else splitOnCharAux sep cs (c :: acc)

/-- JS `s.split(sep)` for a one-character separator. -/
def splitOnChar (sep : Char) (s : String) : List String :=
  (splitOnCharAux sep s.data []).map (fun l => String.mk l)

/-- `fingerprintService.getIPPrefix`: the coarse network part of an IP —
first three octets for IPv4, first four segments for IPv6, else the IP
itself. -/
def getIPNetPart (ip : String) : String :=
  if strIncludes ip "." then String.intercalate "." ((splitOnChar '.' ip).take 3)
  else if strIncludes ip ":" then String.intercalate ":" ((splitOnChar ':' ip).take 4)
  else ip

/-- `fingerprintService.extractBrowserInfo`: browser and OS family from a
user-agent string. -/
def extractBrowserInfo (userAgent : String) : String × String :=
  let browser :=
    if strIncludes userAgent "Chrome" && !strIncludes userAgent "Edg" then "chrome"
    else if strIncludes userAgent "Firefox" then "firefox"
    else if strIncludes userAgent "Safari" && !strIncludes userAgent "Chrome" then "safari"
    else if strIncludes userAgent "Edg" then "edge"
    else "unknown"
  let os :=
    if strIncludes userAgent "Windows" then "windows"
    else if strIncludes userAgent "Mac OS" then "macos"
    else if strIncludes userAgent "Linux" then "linux"
    else if strIncludes userAgent "Android" then "android"
    else if strIncludes userAgent "iPhone" || strIncludes userAgent "iPad" then "ios"
    else "unknown"
  (browser, os)

/-- `fingerprintService.isSimilarUserAgent`: same browser and same OS
family. -/
def isSimilarUserAgent (ua1 ua2 : String) : Bool :=
  decide ((extractBrowserInfo ua1).1 = (extractBrowserInfo ua2).1) &&
    decide ((extractBrowserInfo ua1).2 = (extractBrowserInfo ua2).2)

/-- The connection metadata a fingerprint is derived from. -/
structure FingerprintData where
  userAgent : Option String
  ipAddress : Option String
deriving DecidableEq, Repr

/-- `fingerprintService.hasSignificantChange`: early-returns true when both
IPs are present (and truthy), differ, and their coarse network parts
differ; otherwise returns whether both user agents are present and not
from the same browser/OS family. -/
def hasSignificantChange (o c : FingerprintData) : Bool :=
  let ipSignificant :=
    match o.ipAddress, c.ipAddress with
    | some oip, some cip =>
        if oip == "" || cip == "" then false
        else if oip == cip then false
        else decide (getIPNetPart oip ≠ getIPNetPart cip)
    | _, _ => false
  if ipSignificant then true
  else
    match o.userAgent, c.userAgent with
    | some oua, some cua =>
        if oua == "" || cua == "" then false
        else !isSimilarUserAgent oua cua
    | _, _ => false

/-- Spec-side condition, from the amended claim: the IP's coarse network
part differs (both IPs present, truthy and unequal). -/
def ipNetDiffers (o c : FingerprintData) : Bool :=
  match o.ipAddress, c.ipAddress with
  | some oip, some cip =>
      !(oip == "") && !(cip == "") && !(oip == cip) &&
        decide (getIPNetPart oip ≠ getIPNetPart cip)
  | _, _ => false

/-- Spec-side condition, from the amended claim: the browser/OS family
extracted from the user agent differs (both user agents present and
truthy). -/
def uaFamilyDiffers (o c : FingerprintData) : Bool :=
  match o.userAgent, c.userAgent with
  | some oua, some cua =>
      !(oua == "") && !(cua == "") && !isSimilarUserAgent oua cua
  | _, _ => false

/-- Spec-side predicate following the claim's words: coarse network part
differs AND browser/OS family differs. -/
def claimSignificantAnd (o c : FingerprintData) : Bool :=
  ipNetDiffers o c && uaFamilyDiffers o c

/-- A legal schedule of two concurrent `refreshTokens` calls on the same
token: requests are handled concurrently with suspension points at the
store/cache awaits, so both read phases may run (against the same state)
before either write phase. When both read phases succeed the two write
phases run in order; otherwise the two calls are just run sequentially.
Returns both outcomes and the final state. -/
def interleavedDoubleRefresh (st : St) (tokText : TokText)
    (n1 n2 jtiA1 jtiR1 jtiA2 jtiR2 : Nat) (rid1 rid2 : String) :
    (Except AuthErr (Tok × Tok) × Except AuthErr (Tok × Tok)) × St :=
  match refreshPhase1 st tokText n1, refreshPhase1 st tokText n2 with
  | (.ok ctx1, stR), (.ok ctx2, _) =>
      let a := refreshPhase2 stR ctx1 tokText n1 jtiA1 jtiR1 rid1
      let b := refreshPhase2 a.2 ctx2 tokText n2 jtiA2 jtiR2 rid2
      ((.ok a.1, .ok b.1), b.2)
  | _, _ =>
      let a := refreshTokens st tokText n1 jtiA1 jtiR1 rid1
      let b := refreshTokens a.2 tokText n2 jtiA2 jtiR2 rid2
      ((a.1, b.1), b.2)

namespace Sample

/-- Sample token payload. -/
def payload1 : TokenPayload := ⟨"u1", "a@b.c", "USER"⟩

/-- A refresh token issued to user `u1`, expiring at second 1700000. -/
def tokA : Tok := ⟨"u1", "a@b.c", "USER", 1700000, 100, REFRESH_TOKEN_SECRET⟩

/-- The raw serialization of `tokA` as presented in a request body. -/
def rawA : TokText := .raw tokA

/-- The active session row backing `tokA`. -/
def rowA : SessionRow :=
  ⟨"r0", "u1", rawA, 1604800000, false, some "1.2.3.4", some "Chrome Windows",
   some "fp", 395200000⟩

/-- An empty, reachable revocation cache. -/
def emptyCache : Cache := ⟨fun _ => none, true⟩

/-- An unreachable revocation cache. -/
def downCache : Cache := ⟨fun _ => none, false⟩

/-- User `u1` with the password `pw` and clean lockout fields. -/
def user1 : UserRow :=
  ⟨"u1", "a@b.c", bcryptHashOf "pw", some "Al", "USER", true, 0, none, none⟩

/-- Initial state: one user, one active session, empty cache. -/
def st0 : St := ⟨[user1], [rowA], emptyCache, [], []⟩

/-- Like `st0` but with the revocation cache unreachable. -/
def downSt : St := ⟨[user1], [rowA], downCache, [], []⟩

/-- User `u1` locked until millisecond 2000000000. -/
def userL : UserRow :=
  ⟨"u1", "a@b.c", bcryptHashOf "pw", some "Al", "USER", true, 5,
   some 999000000, some 2000000000⟩

/-- A state whose only user is currently locked out. -/
def stL : St := ⟨[userL], [], emptyCache, [], []⟩

/-- A state with user `u1` and no session yet (fresh login target). -/
def st6 : St := ⟨[user1], [], emptyCache, [], []⟩

/-- User `u1` one failure away from lockout, last failure within the
reset window relative to `t1`. -/
def uW : UserRow :=
  ⟨"u1", "a@b.c", bcryptHashOf "pw", some "Al", "USER", true, 4,
   some 999000000, none⟩

/-- A state whose only user is `uW`. -/
def stW : St := ⟨[uW], [], emptyCache, [], []⟩

/-- User `u1` with two stale failures and no lockout. -/
def uS : UserRow :=
  ⟨"u1", "a@b.c", bcryptHashOf "pw", some "Al", "USER", true, 2,
   some 999000000, none⟩

/-- A state whose only user is `uS`. -/
def stS : St := ⟨[uS], [], emptyCache, [], []⟩

/-- The millisecond clock at the first rotation. -/
def t1 : Nat := 1000000000

/-- Five seconds after `t1`, inside the 10-second grace window. -/
def t2 : Nat := 1000005000

/-- Twenty seconds after `t1`, past the 10-second grace window. -/
def t3 : Nat := 1000020000

/-- State after `tokA` has been rotated once at `t1`. -/
def st1 : St := (refreshTokens st0 rawA t1 201 202 "r1").2

/-- The read-phase result both racing refresh calls observe on `st0`. -/
def ctxA : RefreshCtx := ⟨tokA, rowA⟩

/-- A reachable cache already holding the durable blacklist marker for
`tokA`'s hash (no grace marker). -/
def blackCache : Cache :=
  ⟨fun k => if k = RKey.refreshBlack (hashToken rawA) then some ("1", 1700000)
            else none, true⟩

/-- Like `st0` but with `tokA` already blacklisted. -/
def stB : St := ⟨[user1], [rowA], blackCache, [], []⟩

end Sample

/-- A cache key is live: present with an expiry in the future. -/
def cacheHasLive (c : Cache) (k : RKey) (nowSec : Nat) : Prop :=
  ∃ v e, c.store k = some (v, e) ∧ nowSec < e

/-- Boolean form of `cacheHasLive` (what `redis.exists` computes when the
cache is reachable). -/
def keyLiveB (c : Cache) (k : RKey) (nowSec : Nat) : Bool :=
  match c.store k with
  | some (_, e) => decide (nowSec < e)
  | none => false

theorem addRefreshToken_rows (st : St) (t : TokText) (n : Nat) :
    (addRefreshToken st t n).rows = st.rows := by
  by_cases h : getTtlFromToken t n = 0 <;> by_cases hu : st.cache.up = true <;>
    simp [addRefreshToken, redisSet, h, hu]

theorem addRefreshToken_users (st : St) (t : TokText) (n : Nat) :
    (addRefreshToken st t n).users = st.users := by
  by_cases h : getTtlFromToken t n = 0 <;> by_cases hu : st.cache.up = true <;>
    simp [addRefreshToken, redisSet, h, hu]

theorem addRefreshToken_audit (st : St) (t : TokText) (n : Nat) :
    (addRefreshToken st t n).audit = st.audit := by
  by_cases h : getTtlFromToken t n = 0 <;> by_cases hu : st.cache.up = true <;>
    simp [addRefreshToken, redisSet, h, hu]

theorem addRefreshToken_up (st : St) (t : TokText) (n : Nat) :
    (addRefreshToken st t n).cache.up = st.cache.up := by
  by_cases h : getTtlFromToken t n = 0 <;> by_cases hu : st.cache.up = true <;>
    simp [addRefreshToken, redisSet, h, hu]

theorem addRefreshTokenWithGrace_rows (st : St) (t : TokText) (n : Nat) :
    (addRefreshTokenWithGrace st t n).rows = st.rows := by
  by_cases h : getTtlFromToken t n = 0 <;> by_cases hu : st.cache.up = true <;>
    simp [addRefreshTokenWithGrace, redisSet, h, hu]

theorem addRefreshTokenWithGrace_users (st : St) (t : TokText) (n : Nat) :
    (addRefreshTokenWithGrace st t n).users = st.users := by
  by_cases h : getTtlFromToken t n = 0 <;> by_cases hu : st.cache.up = true <;>
    simp [addRefreshTokenWithGrace, redisSet, h, hu]

theorem isRefreshTokenBlacklisted_rows (st : St) (t : TokText) (n : Nat) :
    (isRefreshTokenBlacklisted st t n).2.rows = st.rows := by
  unfold isRefreshTokenBlacklisted
  split <;> rfl

theorem isRefreshTokenBlacklisted_users (st : St) (t : TokText) (n : Nat) :
    (isRefreshTokenBlacklisted st t n).2.users = st.users := by
  unfold isRefreshTokenBlacklisted
  split <;> rfl

theorem isRefreshTokenBlacklisted_cache (st : St) (t : TokText) (n : Nat) :
    (isRefreshTokenBlacklisted st t n).2.cache = st.cache := by
  unfold isRefreshTokenBlacklisted
  split <;> rfl

/-- With the cache down, the blacklist check reports not-blacklisted and
appends the caught error to the log. -/
theorem isBlacklisted_down (st : St) (t : TokText) (n : Nat)
    (hdown : st.cache.up = false) :
    isRefreshTokenBlacklisted st t n =
      (false, { st with errors := st.errors ++ ["Failed to check refresh token blacklist:"] }) := by
  unfold isRefreshTokenBlacklisted redisExists
  rw [hdown]
  simp

theorem keyLiveB_iff (c : Cache) (k : RKey) (n : Nat) :
    keyLiveB c k n = true ↔ cacheHasLive c k n := by
  unfold keyLiveB cacheHasLive
  cases hs : c.store k with
  | none => simp
  | some p =>
      cases p with
      | mk v e =>
        simp only [Option.some.injEq, Prod.mk.injEq]
        constructor
        · intro h
          exact ⟨v, e, ⟨rfl, rfl⟩, of_decide_eq_true h⟩
        · rintro ⟨v', e', ⟨hv, he⟩, h⟩
          rw [he]
          exact decide_eq_true h

/-- With the cache reachable, the blacklist check computes the grace-aware
lookup and leaves the state untouched. -/
theorem isBlacklisted_up (st : St) (tt : TokText) (nowMs : Nat)
    (hup : st.cache.up = true) :
    isRefreshTokenBlacklisted st tt nowMs =
      (if keyLiveB st.cache (.grace (hashToken tt)) (nowMs / 1000) then false
       else keyLiveB st.cache (.refreshBlack (hashToken tt)) (nowMs / 1000), st) := by
  unfold isRefreshTokenBlacklisted redisExists keyLiveB
  rw [hup]
  simp

/-- C7: for every token hash and reachable cache state,
`isBlacklisted` returns false while a grace marker for that hash is live,
even when the durable blacklist marker is also present; and when no live
grace marker exists, it returns true exactly when the durable marker is
present and unexpired. -/
theorem c7_grace_marker_precedence (st : St) (tt : TokText) (nowMs : Nat)
    (hup : st.cache.up = true) :
    (cacheHasLive st.cache (.grace (hashToken tt)) (nowMs / 1000) →
      (isRefreshTokenBlacklisted st tt nowMs).1 = false) ∧
    (¬ cacheHasLive st.cache (.grace (hashToken tt)) (nowMs / 1000) →
      ((isRefreshTokenBlacklisted st tt nowMs).1 = true ↔
        cacheHasLive st.cache (.refreshBlack (hashToken tt)) (nowMs / 1000))) := by
  rw [isBlacklisted_up st tt nowMs hup]
  constructor
  · intro hlive
    have hg : keyLiveB st.cache (.grace (hashToken tt)) (nowMs / 1000) = true :=
      (keyLiveB_iff _ _ _).mpr hlive
    simp [hg]
  · intro hnot
    have hg : keyLiveB st.cache (.grace (hashToken tt)) (nowMs / 1000) = false := by
      cases hgb : keyLiveB st.cache (.grace (hashToken tt)) (nowMs / 1000)
      · rfl
      · exact absurd ((keyLiveB_iff _ _ _).mp hgb) hnot
    simp [hg, keyLiveB_iff]

/-- Witness for C7: after the rotation at `t1`, both the durable marker and
the grace marker for `tokA`'s hash exist; at `t2` (grace still live) the
check reports false, and at `t3` (grace expired, durable marker still
live) the check reports true. -/
theorem c7_witness :
    Sample.st1.cache.up = true ∧
    cacheHasLive Sample.st1.cache (.grace (hashToken Sample.rawA)) (Sample.t2 / 1000) ∧
    (isRefreshTokenBlacklisted Sample.st1 Sample.rawA Sample.t2).1 = false ∧
    (¬ cacheHasLive Sample.st1.cache (.grace (hashToken Sample.rawA)) (Sample.t3 / 1000)) ∧
    (isRefreshTokenBlacklisted Sample.st1 Sample.rawA Sample.t3).1 = true := by
  refine ⟨by decide, (keyLiveB_iff _ _ _).mp (by decide), ?_, ?_, ?_⟩
  · exact (c7_grace_marker_precedence Sample.st1 Sample.rawA Sample.t2 (by decide)).1
      ((keyLiveB_iff _ _ _).mp (by decide))
  · rw [← keyLiveB_iff]
    decide
  · exact ((c7_grace_marker_precedence Sample.st1 Sample.rawA Sample.t3 (by decide)).2
      (by rw [← keyLiveB_iff]; decide)).mpr ((keyLiveB_iff _ _ _).mp (by decide))

/-- C8: when the revocation cache is unreachable, `isBlacklisted` fails
open — it returns false, appends the caught error to the log instead of
propagating it, and leaves the session store (rows, users) untouched as
the authoritative revocation source. -/
theorem c8_cache_failure_fails_open (st : St) (tt : TokText) (nowMs : Nat)
    (hdown : st.cache.up = false) :
    (isRefreshTokenBlacklisted st tt nowMs).1 = false ∧
    (isRefreshTokenBlacklisted st tt nowMs).2.errors =
      st.errors ++ ["Failed to check refresh token blacklist:"] ∧
    (isRefreshTokenBlacklisted st tt nowMs).2.rows = st.rows ∧
    (isRefreshTokenBlacklisted st tt nowMs).2.users = st.users := by
  rw [isBlacklisted_down st tt nowMs hdown]
  exact ⟨rfl, rfl, rfl, rfl⟩

/-- Witness for C8 at a concrete unreachable-cache state. -/
theorem c8_witness :
    Sample.downSt.cache.up = false ∧
    (isRefreshTokenBlacklisted Sample.downSt Sample.rawA Sample.t1).1 = false ∧
    (isRefreshTokenBlacklisted Sample.downSt Sample.rawA Sample.t1).2.errors =
      Sample.downSt.errors ++ ["Failed to check refresh token blacklist:"] :=
  ⟨rfl, (c8_cache_failure_fails_open Sample.downSt Sample.rawA Sample.t1 rfl).1,
    (c8_cache_failure_fails_open Sample.downSt Sample.rawA Sample.t1 rfl).2.1⟩

/-- C4: the grace window provides no actual tolerance for a concurrent
(duplicate) refresh — after `tokA` is rotated at `t1`, a second call
presenting `tokA` at `t2` (five seconds later, inside the 10-second grace
window, so the blacklist check itself reports false) is nevertheless
treated as an attack: the stored row's revoked flag triggers the
reuse-detected branch, every session of the user is revoked, a
`TOKEN_REUSE_DETECTED` audit event is emitted, and the call rejects with
`TOKEN_REUSE_DETECTED`. This contradicts the stated purpose of the grace
marker (and the source's own comments "allows concurrent refresh"). -/
theorem c4_grace_window_still_rejects :
    (isRefreshTokenBlacklisted Sample.st1 Sample.rawA Sample.t2).1 = false ∧
    (refreshTokens Sample.st1 Sample.rawA Sample.t2 301 302 "r2").1 =
      .error .tokenReuseDetected ∧
    (∀ r ∈ (refreshTokens Sample.st1 Sample.rawA Sample.t2 301 302 "r2").2.rows,
      r.userId = "u1" → r.isRevoked = true) ∧
    AuditEvent.mk "TOKEN_REUSE_DETECTED" (some "u1") ∈
      (refreshTokens Sample.st1 Sample.rawA Sample.t2 301 302 "r2").2.audit := by
  decide

/-- C6: the durable session store receives the raw refresh-token value —
the row created by a concrete login holds the token itself, not its
SHA-256 digest — while the revocation-cache side does key by the hash
(the durable blacklist marker written by the rotation at `t1` lives under
the hashed key). -/
theorem c6_raw_token_persisted :
    (∃ row ∈ (login Sample.st6 "a@b.c" "pw" (some "1.2.3.4") (some "Chrome Windows")
        Sample.t1 11 12 "rNew").2.rows,
      row.token = .raw (generateRefreshToken Sample.payload1 Sample.t1 12) ∧
      row.token ≠ hashToken (.raw (generateRefreshToken Sample.payload1 Sample.t1 12))) ∧
    keyLiveB Sample.st1.cache (.refreshBlack (hashToken Sample.rawA)) (Sample.t2 / 1000) =
      true := by
  decide

/-- Counterexample for C5: two fingerprints whose IPs sit in different
coarse networks but whose user agents share the same browser/OS family —
only one of the two signals differs, so the claim's AND-semantics demands
false, yet `hasSignificantChange` returns true. -/
theorem c5_counterexample :
    hasSignificantChange ⟨some "Chrome Windows", some "1.2.3.4"⟩
        ⟨some "Chrome Windows", some "9.9.9.9"⟩ = true ∧
    claimSignificantAnd ⟨some "Chrome Windows", some "1.2.3.4"⟩
        ⟨some "Chrome Windows", some "9.9.9.9"⟩ = false ∧
    ipNetDiffers ⟨some "Chrome Windows", some "1.2.3.4"⟩
        ⟨some "Chrome Windows", some "9.9.9.9"⟩ = true ∧
    uaFamilyDiffers ⟨some "Chrome Windows", some "1.2.3.4"⟩
        ⟨some "Chrome Windows", some "9.9.9.9"⟩ = false := by
  decide

/-- Inversion of a successful read phase: the presented token's row was
found in the session store and its revoked flag was false. -/
theorem refreshPhase1_ok_inv (st : St) (tt : TokText) (n : Nat) (ctx : RefreshCtx)
    (st' : St) (h : refreshPhase1 st tt n = (.ok ctx, st')) :
    st.rows.find? (fun r => decide (r.token = tt)) = some ctx.stored ∧
    ctx.stored.isRevoked = false := by
  unfold refreshPhase1 at h
  cases hv : verifyRefreshToken tt n with
  | error e => rw [hv] at h; simp at h
  | ok d =>
      rw [hv] at h
      simp only [] at h
      by_cases hb : (isRefreshTokenBlacklisted st tt n).1 = true
      · rw [if_pos hb] at h
        simp at h
      · rw [if_neg hb] at h
        cases hf : (isRefreshTokenBlacklisted st tt n).2.rows.find?
            (fun r => decide (r.token = tt)) with
        | none => rw [hf] at h; simp at h
        | some stored =>
            simp only [hf] at h
            by_cases hrev : stored.isRevoked = true
            · simp [hrev] at h
            · simp only [if_neg hrev] at h
              have hp := congrArg Prod.fst h
              have hctx : RefreshCtx.mk d stored = ctx := Except.ok.inj hp
              rw [isRefreshTokenBlacklisted_rows] at hf
              constructor
              · rw [← hctx]
                exact hf
              · rw [← hctx]
                simpa using hrev

/-- Counterexample for C2: from a state whose row for `tokA` is not
revoked, a legal concurrent schedule runs both read phases (each observing
`isRevoked = false`) before either write phase; both calls then complete
their write phases and BOTH return fresh token pairs — the losing call is
not treated as a reuse event, because the mark-revoked step is an
unconditional update with no affected-row-count check. -/
theorem c2_counterexample :
    (refreshPhase1 Sample.st0 Sample.rawA Sample.t1).1 = .ok Sample.ctxA ∧
    (refreshPhase1 Sample.st0 Sample.rawA Sample.t2).1 = .ok Sample.ctxA ∧
    Sample.ctxA.stored.isRevoked = false ∧
    (interleavedDoubleRefresh Sample.st0 Sample.rawA Sample.t1 Sample.t2
        201 202 301 302 "r1" "r2").1 =
      (.ok (generateTokens Sample.payload1 Sample.t1 201 202),
       .ok (generateTokens Sample.payload1 Sample.t2 301 302)) := by
  decide

/-- C2 amended: the mark-revoked step is an unconditional update keyed by
the token value, with no affected-row-count check; whenever two concurrent
refresh calls for the same token both pass the read phase (both observing
`isRevoked = false`) before either writes, both proceed to issue new token
pairs — the loser is not treated as a reuse event at rotation time. -/
theorem c2_amended_both_calls_issue_tokens (st : St) (tt : TokText)
    (n1 n2 jA1 jR1 jA2 jR2 : Nat) (rid1 rid2 : String) (c1 c2 : RefreshCtx)
    (h1 : (refreshPhase1 st tt n1).1 = .ok c1)
    (h2 : (refreshPhase1 st tt n2).1 = .ok c2) :
    ∃ p q, (interleavedDoubleRefresh st tt n1 n2 jA1 jR1 jA2 jR2 rid1 rid2).1 =
      (.ok p, .ok q) := by
  have e1 : refreshPhase1 st tt n1 = (.ok c1, (refreshPhase1 st tt n1).2) := by
    rw [← h1]
  have e2 : refreshPhase1 st tt n2 = (.ok c2, (refreshPhase1 st tt n2).2) := by
    rw [← h2]
  unfold interleavedDoubleRefresh
  rw [e1, e2]
  exact ⟨_, _, rfl⟩

/-- Witness for the amended C2 at the concrete racing scenario. -/
theorem c2_amended_witness :
    (refreshPhase1 Sample.st0 Sample.rawA Sample.t1).1 = .ok Sample.ctxA ∧
    (refreshPhase1 Sample.st0 Sample.rawA Sample.t2).1 = .ok Sample.ctxA ∧
    ∃ p q, (interleavedDoubleRefresh Sample.st0 Sample.rawA Sample.t1 Sample.t2
        201 202 301 302 "r1" "r2").1 = (.ok p, .ok q) :=
  ⟨by decide, by decide,
    c2_amended_both_calls_issue_tokens Sample.st0 Sample.rawA Sample.t1 Sample.t2
      201 202 301 302 "r1" "r2" Sample.ctxA Sample.ctxA (by decide) (by decide)⟩

/-- The locked-out branch of `login` in full: lockout in the future means
an `ACCOUNT_LOCKED` rejection reporting the remaining minutes, and the
only state change is the audit record. -/
theorem login_locked_eq (st : St) (email password : String) (ip ua : Option String)
    (nowMs jA jR : Nat) (rid : String) (u : UserRow) (l : Nat)
    (hu : findUserByEmail st.users email = some u)
    (hl : u.lockoutUntil = some l) (hnow : nowMs < l) :
    login st email password ip ua nowMs jA jR rid =
      (.error (.accountLocked ((l - nowMs + 59999) / 60000)),
       { st with audit := st.audit ++ [⟨"LOGIN_FAILED", some u.id⟩] }) := by
  unfold login
  rw [hu]
  simp only [hl, if_pos hnow]

/-- When the lockout guard does not fire, `login` is the checked path. -/
theorem login_not_locked (st : St) (email password : String) (ip ua : Option String)
    (nowMs jA jR : Nat) (rid : String) (u : UserRow)
    (hu : findUserByEmail st.users email = some u)
    (hl : lockActive u nowMs = false) :
    login st email password ip ua nowMs jA jR rid =
      loginChecked st u password ip ua nowMs jA jR rid := by
  unfold login
  rw [hu]
  cases hlu : u.lockoutUntil with
  | none => simp only [hlu]
  | some l =>
      have hn : ¬ nowMs < l := by
        unfold lockActive at hl
        rw [hlu] at hl
        simpa using hl
      simp only [hlu, if_neg hn]

/-- The fifth in-window failure locks the account: counter 5, lockout at
now plus 15 minutes, `ACCOUNT_LOCKED` then `LOGIN_FAILED` audited. -/
theorem handleFailedLogin_locks (st : St) (u : UserRow) (nowMs : Nat)
    (h4 : u.failedLoginAttempts = 4)
    (hw : ∀ lf, u.lastFailedLogin = some lf →
      nowMs - lf ≤ LOCKOUT_resetWindowMinutes * 60000) :
    handleFailedLogin st u nowMs =
      { st with
          users := updateUserById st.users u.id (fun x =>
            { x with failedLoginAttempts := 5, lastFailedLogin := some nowMs,
                     lockoutUntil :=
                       some (nowMs + LOCKOUT_lockoutDurationMinutes * 60000) }),
          audit := st.audit ++ [⟨"ACCOUNT_LOCKED", some u.id⟩]
            ++ [⟨"LOGIN_FAILED", some u.id⟩] } := by
  unfold handleFailedLogin
  cases hlf : u.lastFailedLogin with
  | none =>
      simp [h4, LOCKOUT_maxAttempts, LOCKOUT_lockoutDurationMinutes]
  | some lf =>
      have hnw : ¬ LOCKOUT_resetWindowMinutes * 60000 < nowMs - lf := by
        have := hw lf hlf
        omega
      simp [hlf, if_neg hnw, h4, LOCKOUT_maxAttempts, LOCKOUT_lockoutDurationMinutes]

theorem loginChecked_wrong_password (st : St) (u : UserRow) (password : String)
    (ip ua : Option String) (nowMs jA jR : Nat) (rid : String)
    (hc : bcryptCompare password u.password = false) :
    loginChecked st u password ip ua nowMs jA jR rid =
      (.error .invalidCredentials, handleFailedLogin st u nowMs) := by
  unfold loginChecked
  rw [if_pos hc]

theorem loginChecked_success_fst (st : St) (u : UserRow) (password : String)
    (ip ua : Option String) (nowMs jA jR : Nat) (rid : String)
    (hc : bcryptCompare password u.password = true)
    (hact : u.isActive = true) :
    (loginChecked st u password ip ua nowMs jA jR rid).1 =
      .ok ⟨u.id, generateAccessToken ⟨u.id, u.email, u.role⟩ nowMs jA,
           generateRefreshToken ⟨u.id, u.email, u.role⟩ nowMs jR⟩ := by
  unfold loginChecked
  rw [if_neg (by simp [hc]), if_neg (by simp [hact])]
  rfl

theorem loginChecked_success_users (st : St) (u : UserRow) (password : String)
    (ip ua : Option String) (nowMs jA jR : Nat) (rid : String)
    (hc : bcryptCompare password u.password = true)
    (hact : u.isActive = true)
    (hpos : 0 < u.failedLoginAttempts) :
    (loginChecked st u password ip ua nowMs jA jR rid).2.users =
      updateUserById st.users u.id (fun x =>
        { x with failedLoginAttempts := 0, lockoutUntil := none,
                 lastFailedLogin := none }) := by
  unfold loginChecked
  rw [if_neg (by simp [hc]), if_neg (by simp [hact])]
  simp only [if_pos hpos]

theorem updateUserById_mem_id (users : List UserRow) (uid : String)
    (f : UserRow → UserRow) :
    ∀ u' ∈ updateUserById users uid f, u'.id = uid →
      ∃ x, x ∈ users ∧ x.id = uid ∧ u' = f x := by
  intro u' hu' hid
  unfold updateUserById at hu'
  obtain ⟨x, hx, he⟩ := List.mem_map.mp hu'
  by_cases h0 : x.id = uid
  · exact ⟨x, hx, h0, by rw [← he, if_pos h0]⟩
  · rw [if_neg h0] at he
    subst he
    exact absurd hid h0

/-- C3: the lockout state machine. (1) A failed login that brings the
in-window counter to 5 sets `lockoutUntil` to the failure instant plus 15
minutes and emits an `ACCOUNT_LOCKED` audit event. (2) While
`lockoutUntil` lies in the future, every login attempt — for any password
whatsoever — rejects with `ACCOUNT_LOCKED` reporting the remaining
minutes. (3) A successful login while `failedLoginAttempts > 0` resets
the counter to 0 and clears `lockoutUntil` and `lastFailedLogin`. -/
theorem c3_lockout_state_machine (st : St) (email password : String)
    (ip ua : Option String) (nowMs jA jR : Nat) (rid : String) (u : UserRow)
    (hu : findUserByEmail st.users email = some u) :
    (lockActive u nowMs = false →
      bcryptCompare password u.password = false →
      u.failedLoginAttempts = 4 →
      (∀ lf, u.lastFailedLogin = some lf →
        nowMs - lf ≤ LOCKOUT_resetWindowMinutes * 60000) →
      (login st email password ip ua nowMs jA jR rid).1 = .error .invalidCredentials ∧
      (∀ u' ∈ (login st email password ip ua nowMs jA jR rid).2.users, u'.id = u.id →
        u'.failedLoginAttempts = 5 ∧
        u'.lockoutUntil = some (nowMs + LOCKOUT_lockoutDurationMinutes * 60000)) ∧
      AuditEvent.mk "ACCOUNT_LOCKED" (some u.id) ∈
        (login st email password ip ua nowMs jA jR rid).2.audit) ∧
    (∀ l, u.lockoutUntil = some l → nowMs < l →
      (login st email password ip ua nowMs jA jR rid).1 =
        .error (.accountLocked ((l - nowMs + 59999) / 60000))) ∧
    (lockActive u nowMs = false →
      bcryptCompare password u.password = true →
      u.isActive = true →
      0 < u.failedLoginAttempts →
      (login st email password ip ua nowMs jA jR rid).1 =
        .ok ⟨u.id, generateAccessToken ⟨u.id, u.email, u.role⟩ nowMs jA,
             generateRefreshToken ⟨u.id, u.email, u.role⟩ nowMs jR⟩ ∧
      (∀ u' ∈ (login st email password ip ua nowMs jA jR rid).2.users, u'.id = u.id →
        u'.failedLoginAttempts = 0 ∧ u'.lockoutUntil = none ∧
        u'.lastFailedLogin = none)) := by
  refine ⟨?_, ?_, ?_⟩
  · intro hl hc h4 hw
    have he : login st email password ip ua nowMs jA jR rid =
        (.error .invalidCredentials, handleFailedLogin st u nowMs) := by
      rw [login_not_locked st email password ip ua nowMs jA jR rid u hu hl]
      exact loginChecked_wrong_password st u password ip ua nowMs jA jR rid hc
    have hh := handleFailedLogin_locks st u nowMs h4 hw
    refine ⟨by rw [he], ?_, ?_⟩
    · intro u' hu' hid
      rw [he, hh] at hu'
      obtain ⟨x, hx, hxid, hxe⟩ :=
        updateUserById_mem_id st.users u.id _ u' hu' hid
      rw [hxe]
      exact ⟨rfl, rfl⟩
    · rw [he, hh]
      simp
  · intro l hl hnow
    rw [login_locked_eq st email password ip ua nowMs jA jR rid u l hu hl hnow]
  · intro hl hc hact hpos
    have he := login_not_locked st email password ip ua nowMs jA jR rid u hu hl
    constructor
    · rw [he]
      exact loginChecked_success_fst st u password ip ua nowMs jA jR rid hc hact
    · intro u' hu' hid
      rw [he] at hu'
      rw [loginChecked_success_users st u password ip ua nowMs jA jR rid hc hact hpos] at hu'
      obtain ⟨x, hx, hxid, hxe⟩ :=
        updateUserById_mem_id st.users u.id _ u' hu' hid
      rw [hxe]
      exact ⟨rfl, rfl, rfl⟩

/-- Witness for C3: the fifth in-window wrong-password attempt against
`uW` rejects and audits `ACCOUNT_LOCKED`; the locked user `userL` is
rejected with the remaining-minutes report; the correct-password login of
`uS` (two stale failures) succeeds. -/
theorem c3_witness :
    ((login Sample.stW "a@b.c" "bad" none none Sample.t1 1 2 "r").1 =
        .error .invalidCredentials ∧
      AuditEvent.mk "ACCOUNT_LOCKED" (some "u1") ∈
        (login Sample.stW "a@b.c" "bad" none none Sample.t1 1 2 "r").2.audit) ∧
    (login Sample.stL "a@b.c" "pw" none none Sample.t1 1 2 "r").1 =
      .error (.accountLocked ((2000000000 - Sample.t1 + 59999) / 60000)) ∧
    (login Sample.stS "a@b.c" "pw" none none Sample.t1 1 2 "r").1 =
      .ok ⟨"u1", generateAccessToken ⟨"u1", "a@b.c", "USER"⟩ Sample.t1 1,
           generateRefreshToken ⟨"u1", "a@b.c", "USER"⟩ Sample.t1 2⟩ := by
  have hw : ∀ lf, Sample.uW.lastFailedLogin = some lf →
      Sample.t1 - lf ≤ LOCKOUT_resetWindowMinutes * 60000 := by
    intro lf h
    have h1 : (999000000 : Nat) = lf := Option.some.inj h
    rw [← h1]
    decide
  have hi := (c3_lockout_state_machine Sample.stW "a@b.c" "bad" none none
    Sample.t1 1 2 "r" Sample.uW (by decide)).1 (by decide) (by decide) rfl hw
  refine ⟨⟨hi.1, hi.2.2⟩, ?_, ?_⟩
  · exact (c3_lockout_state_machine Sample.stL "a@b.c" "pw" none none
      Sample.t1 1 2 "r" Sample.userL (by decide)).2.1 2000000000 rfl (by decide)
  · exact ((c3_lockout_state_machine Sample.stS "a@b.c" "pw" none none
      Sample.t1 1 2 "r" Sample.uS (by decide)).2.2 (by decide) (by decide) rfl
      (by decide)).1

/-- The write phase always appends the fresh session row: id `rowId`,
the decoded user, the new raw refresh token, expiry `now + 7 days`, not
revoked, metadata inherited from the stored row. -/
theorem refreshPhase2_newRow (st : St) (ctx : RefreshCtx) (tt : TokText)
    (nowMs jA jR : Nat) (rid : String) :
    (⟨rid, ctx.decoded.userId, .raw (refreshPhase2 st ctx tt nowMs jA jR rid).1.2,
      getRefreshTokenExpiry nowMs, false, ctx.stored.ipAddress, ctx.stored.userAgent,
      ctx.stored.fingerprint, nowMs⟩ : SessionRow) ∈
      (refreshPhase2 st ctx tt nowMs jA jR rid).2.rows := by
  unfold refreshPhase2
  simp

/-- C9: every successful `refreshTokens` call creates a session row whose
`expiresAt` is exactly the rotation instant plus 7 days — it is not capped
by the rotated session's own expiry, so each rotation pushes the
lifetime 7 days past the rotation time, strictly beyond `loginMs + 7d`
for any earlier login instant. -/
theorem c9_rotation_extends_expiry (st : St) (tt : TokText) (nowMs jA jR : Nat)
    (rid : String) (a r : Tok)
    (h : (refreshTokens st tt nowMs jA jR rid).1 = .ok (a, r)) :
    ∃ row, row ∈ (refreshTokens st tt nowMs jA jR rid).2.rows ∧ row.id = rid ∧
      row.token = .raw r ∧ row.expiresAt = getRefreshTokenExpiry nowMs ∧
      getRefreshTokenExpiry nowMs = nowMs + 7 * 24 * 60 * 60 * 1000 ∧
      ∀ loginMs, loginMs < nowMs → loginMs + 7 * 24 * 60 * 60 * 1000 < row.expiresAt := by
  unfold refreshTokens at h ⊢
  cases hp : refreshPhase1 st tt nowMs with
  | mk res stMid =>
    rw [hp] at h
    cases res with
    | error e => simp at h
    | ok ctx =>
        simp only [] at h ⊢
        have hpair : (refreshPhase2 stMid ctx tt nowMs jA jR rid).1 = (a, r) :=
          Except.ok.inj h
        refine ⟨⟨rid, ctx.decoded.userId,
          .raw (refreshPhase2 stMid ctx tt nowMs jA jR rid).1.2,
          getRefreshTokenExpiry nowMs, false, ctx.stored.ipAddress,
          ctx.stored.userAgent, ctx.stored.fingerprint, nowMs⟩,
          refreshPhase2_newRow stMid ctx tt nowMs jA jR rid, rfl, ?_, rfl, rfl, ?_⟩
        · rw [hpair]
        · intro loginMs hlt
          show loginMs + 7 * 24 * 60 * 60 * 1000 < nowMs + 7 * 24 * 60 * 60 * 1000
          omega

/-- Witness for C9 at the concrete rotation of `tokA` at `t1`. -/
theorem c9_witness :
    (refreshTokens Sample.st0 Sample.rawA Sample.t1 201 202 "r1").1 =
      .ok (generateAccessToken Sample.payload1 Sample.t1 201,
           generateRefreshToken Sample.payload1 Sample.t1 202) ∧
    ∃ row, row ∈ (refreshTokens Sample.st0 Sample.rawA Sample.t1 201 202 "r1").2.rows ∧
      row.id = "r1" ∧
      row.token = .raw (generateRefreshToken Sample.payload1 Sample.t1 202) ∧
      row.expiresAt = getRefreshTokenExpiry Sample.t1 ∧
      getRefreshTokenExpiry Sample.t1 = Sample.t1 + 7 * 24 * 60 * 60 * 1000 ∧
      ∀ loginMs, loginMs < Sample.t1 →
        loginMs + 7 * 24 * 60 * 60 * 1000 < row.expiresAt :=
  ⟨by decide,
    c9_rotation_extends_expiry Sample.st0 Sample.rawA Sample.t1 201 202 "r1"
      (generateAccessToken Sample.payload1 Sample.t1 201)
      (generateRefreshToken Sample.payload1 Sample.t1 202) (by decide)⟩

theorem ifFalseAnd (A Z : Bool) : (if A then false else Z) = (!A && Z) := by
  cases A <;> simp

theorem iteTrueOr (A B : Bool) : (if A then true else B) = (A || B) := by
  cases A <;> simp

/-- C5 amended: `hasSignificantChange` returns true exactly when the IP's
coarse network part differs (both IPs present, non-empty and unequal) OR
the browser/OS family extracted from the user agents differs (both user
agents present and non-empty) — a disjunction, not the claimed
conjunction; either signal alone already yields true. -/
theorem c5_amended_or_semantics (o c : FingerprintData) :
    hasSignificantChange o c = (ipNetDiffers o c || uaFamilyDiffers o c) := by
  rcases o with ⟨oua, oip⟩
  rcases c with ⟨cua, cip⟩
  unfold hasSignificantChange ipNetDiffers uaFamilyDiffers
  cases oip <;> cases cip <;> cases oua <;> cases cua <;>
    simp only [ifFalseAnd, iteTrueOr, Bool.not_or, Bool.and_assoc]

/-- C10: a login attempt while `lockoutUntil` lies in the future rejects
with `ACCOUNT_LOCKED` (for every password, so before the password is ever
compared), and the resulting state differs from the input state only by
the audit record — in particular the user's lockout fields are unchanged
and the rejected-while-locked attempt is not counted as a failure. -/
theorem c10_locked_rejects_without_counting (st : St) (email password : String)
    (ip ua : Option String) (nowMs jtiA jtiR : Nat) (rowId : String)
    (u : UserRow) (l : Nat)
    (hu : findUserByEmail st.users email = some u)
    (hl : u.lockoutUntil = some l) (hnow : nowMs < l) :
    login st email password ip ua nowMs jtiA jtiR rowId =
      (.error (.accountLocked ((l - nowMs + 59999) / 60000)),
       { st with audit := st.audit ++ [⟨"LOGIN_FAILED", some u.id⟩] }) ∧
    (login st email password ip ua nowMs jtiA jtiR rowId).2.users = st.users := by
  have h1 : login st email password ip ua nowMs jtiA jtiR rowId =
      (.error (.accountLocked ((l - nowMs + 59999) / 60000)),
       { st with audit := st.audit ++ [⟨"LOGIN_FAILED", some u.id⟩] }) := by
    unfold login
    rw [hu]
    simp only [hl, if_pos hnow]
  exact ⟨h1, by rw [h1]⟩

/-- Witness for C10: the concrete locked user `userL` is rejected with the
remaining-minutes report and the user table is untouched, for an attempt
carrying the correct password. -/
theorem c10_witness :
    findUserByEmail Sample.stL.users "a@b.c" = some Sample.userL ∧
    Sample.userL.lockoutUntil = some 2000000000 ∧
    Sample.t1 < 2000000000 ∧
    (login Sample.stL "a@b.c" "pw" none none Sample.t1 1 2 "r").1 =
      .error (.accountLocked ((2000000000 - Sample.t1 + 59999) / 60000)) ∧
    (login Sample.stL "a@b.c" "pw" none none Sample.t1 1 2 "r").2.users =
      Sample.stL.users :=
  ⟨by decide, rfl, by decide,
    congrArg Prod.fst
      (c10_locked_rejects_without_counting Sample.stL "a@b.c" "pw" none none
        Sample.t1 1 2 "r" Sample.userL 2000000000 (by decide) rfl (by decide)).1,
    (c10_locked_rejects_without_counting Sample.stL "a@b.c" "pw" none none
      Sample.t1 1 2 "r" Sample.userL 2000000000 (by decide) rfl (by decide)).2⟩

theorem addRefreshToken_preservesLive (s : St) (t : TokText) (n : Nat) (k : RKey)
    (h : cacheHasLive s.cache k (n / 1000)) :
    cacheHasLive (addRefreshToken s t n).cache k (n / 1000) := by
  unfold addRefreshToken redisSet
  by_cases h0 : getTtlFromToken t n = 0
  · simpa [h0] using h
  · by_cases hu : s.cache.up = true
    · simp only [h0, hu, if_neg h0, if_pos hu]
      by_cases hk : k = RKey.refreshBlack (hashToken t)
      · refine ⟨"1", n / 1000 + getTtlFromToken t n, ?_, ?_⟩
        · simp [hk]
        · omega
      · obtain ⟨v, e, hs, hlt⟩ := h
        refine ⟨v, e, ?_, hlt⟩
        simp [hk]
        exact hs
    · simpa [h0, hu] using h

theorem addRefreshToken_setsLive (s : St) (t : TokText) (n : Nat)
    (hu : s.cache.up = true) (ht : getTtlFromToken t n ≠ 0) :
    cacheHasLive (addRefreshToken s t n).cache (.refreshBlack (hashToken t))
      (n / 1000) := by
  unfold addRefreshToken redisSet
  simp only [if_neg ht, if_pos hu]
  refine ⟨"1", n / 1000 + getTtlFromToken t n, by simp, by omega⟩

theorem foldl_add_preservesLive (l : List SessionRow) (s : St) (n : Nat) (k : RKey)
    (h : cacheHasLive s.cache k (n / 1000)) :
    cacheHasLive ((l.foldl (fun acc r => addRefreshToken acc r.token n) s).cache) k
      (n / 1000) := by
  induction l generalizing s with
  | nil => exact h
  | cons hd tl ih => exact ih _ (addRefreshToken_preservesLive s hd.token n k h)

theorem foldl_add_up (l : List SessionRow) (s : St) (n : Nat) :
    (l.foldl (fun acc r => addRefreshToken acc r.token n) s).cache.up = s.cache.up := by
  induction l generalizing s with
  | nil => rfl
  | cons hd tl ih => rw [List.foldl_cons, ih, addRefreshToken_up]

theorem foldl_add_rows (l : List SessionRow) (s : St) (n : Nat) :
    (l.foldl (fun acc r => addRefreshToken acc r.token n) s).rows = s.rows := by
  induction l generalizing s with
  | nil => rfl
  | cons hd tl ih => rw [List.foldl_cons, ih, addRefreshToken_rows]

theorem foldl_add_users (l : List SessionRow) (s : St) (n : Nat) :
    (l.foldl (fun acc r => addRefreshToken acc r.token n) s).users = s.users := by
  induction l generalizing s with
  | nil => rfl
  | cons hd tl ih => rw [List.foldl_cons, ih, addRefreshToken_users]

theorem foldl_add_audit (l : List SessionRow) (s : St) (n : Nat) :
    (l.foldl (fun acc r => addRefreshToken acc r.token n) s).audit = s.audit := by
  induction l generalizing s with
  | nil => rfl
  | cons hd tl ih => rw [List.foldl_cons, ih, addRefreshToken_audit]

theorem foldl_add_setsLive (l : List SessionRow) (s : St) (n : Nat) (r0 : SessionRow)
    (hmem : r0 ∈ l) (hu : s.cache.up = true)
    (ht : getTtlFromToken r0.token n ≠ 0) :
    cacheHasLive ((l.foldl (fun acc r => addRefreshToken acc r.token n) s).cache)
      (.refreshBlack (hashToken r0.token)) (n / 1000) := by
  induction l generalizing s with
  | nil => cases hmem
  | cons hd tl ih =>
      rcases List.mem_cons.mp hmem with h1 | h2
      · subst h1
        exact foldl_add_preservesLive tl _ n _
          (addRefreshToken_setsLive s r0.token n hu ht)
      · exact ih _ h2 (by rw [addRefreshToken_up]; exact hu)

theorem revokeAll_rows_eq (s : St) (uId : String) (ip ua : Option String) (n : Nat) :
    (revokeAllUserTokens s uId ip ua n).rows =
      s.rows.map (fun r =>
        if r.userId = uId ∧ r.isRevoked = false then { r with isRevoked := true }
        else r) := by
  unfold revokeAllUserTokens
  split <;> simp [foldl_add_rows]

theorem revokeAll_cache_eq (s : St) (uId : String) (ip ua : Option String) (n : Nat) :
    (revokeAllUserTokens s uId ip ua n).cache =
      ((s.rows.filter (fun r => decide (r.userId = uId) && !r.isRevoked)).foldl
        (fun acc r => addRefreshToken acc r.token n)
        { s with rows := s.rows.map (fun r =>
            if r.userId = uId ∧ r.isRevoked = false then { r with isRevoked := true }
            else r) }).cache := by
  unfold revokeAllUserTokens
  split <;> rfl

theorem revokeAll_audit_none (s : St) (uId : String) (n : Nat) :
    (revokeAllUserTokens s uId none none n).audit = s.audit := by
  unfold revokeAllUserTokens
  simp [foldl_add_audit]

/-- After `revokeAllUserTokens`, every session row of the user is revoked. -/
theorem revokeAll_rows_revoked (s : St) (uId : String) (ip ua : Option String)
    (n : Nat) :
    ∀ r ∈ (revokeAllUserTokens s uId ip ua n).rows, r.userId = uId →
      r.isRevoked = true := by
  intro r hr hru
  rw [revokeAll_rows_eq] at hr
  obtain ⟨x, hx, he⟩ := List.mem_map.mp hr
  by_cases hc : x.userId = uId ∧ x.isRevoked = false
  · rw [if_pos hc] at he
    rw [← he]
  · rw [if_neg hc] at he
    subst he
    cases hrev : x.isRevoked
    · exact absurd ⟨hru, hrev⟩ hc
    · rfl

/-- After `revokeAllUserTokens` with a reachable cache, every previously
active (unexpired) token of the user carries a live durable blacklist
marker under its hashed key. -/
theorem revokeAll_blacklists (s : St) (uId : String) (ip ua : Option String) (n : Nat)
    (hu : s.cache.up = true) :
    ∀ r ∈ s.rows, r.userId = uId → r.isRevoked = false →
      getTtlFromToken r.token n ≠ 0 →
      cacheHasLive (revokeAllUserTokens s uId ip ua n).cache
        (.refreshBlack (hashToken r.token)) (n / 1000) := by
  intro r hr hru hrev ht
  rw [revokeAll_cache_eq]
  have hmem : r ∈ s.rows.filter (fun x => decide (x.userId = uId) && !x.isRevoked) := by
    rw [List.mem_filter]
    exact ⟨hr, by simp [hru, hrev]⟩
  exact foldl_add_setsLive _ _ n r hmem hu ht

theorem refreshTokens_error_of_phase1 (s : St) (t2 : TokText) (n2 jA2 jR2 : Nat)
    (r2 : String) (e : AuthErr) (sX : St)
    (h : refreshPhase1 s t2 n2 = (.error e, sX)) :
    refreshTokens s t2 n2 jA2 jR2 r2 = (.error e, sX) := by
  unfold refreshTokens
  rw [h]

/-- Any of the three reuse triggers (blacklisted hash, missing row,
revoked row) sends the read phase into the reuse-detected branch: mass
revocation, the audit record and the `TOKEN_REUSE_DETECTED` rejection. -/
theorem refreshPhase1_reuse (st : St) (tt : TokText) (n : Nat) (d : Tok)
    (hv : verifyRefreshToken tt n = .ok d)
    (htrig : (isRefreshTokenBlacklisted st tt n).1 = true ∨
      (∀ r, st.rows.find? (fun x => decide (x.token = tt)) = some r →
        r.isRevoked = true)) :
    ∃ stMid, refreshPhase1 st tt n =
        (.error .tokenReuseDetected,
         { revokeAllUserTokens stMid d.userId none none n with
             audit := (revokeAllUserTokens stMid d.userId none none n).audit ++
               [⟨"TOKEN_REUSE_DETECTED", some d.userId⟩] }) ∧
      stMid.rows = st.rows ∧ stMid.cache.up = st.cache.up := by
  unfold refreshPhase1
  rw [hv]
  simp only []
  by_cases hb : (isRefreshTokenBlacklisted st tt n).1 = true
  · refine ⟨(isRefreshTokenBlacklisted st tt n).2, ?_,
      isRefreshTokenBlacklisted_rows st tt n,
      by rw [isRefreshTokenBlacklisted_cache]⟩
    rw [if_pos hb]
  · rw [if_neg hb]
    cases hf : (isRefreshTokenBlacklisted st tt n).2.rows.find?
        (fun r => decide (r.token = tt)) with
    | none =>
        refine ⟨addRefreshToken (isRefreshTokenBlacklisted st tt n).2 tt n, rfl, ?_, ?_⟩
        · rw [addRefreshToken_rows, isRefreshTokenBlacklisted_rows]
        · rw [addRefreshToken_up, isRefreshTokenBlacklisted_cache]
    | some stored =>
        have hrev : stored.isRevoked = true := by
          rcases htrig with hb2 | hall
          · exact absurd hb2 hb
          · refine hall stored ?_
            rw [← isRefreshTokenBlacklisted_rows st tt n]
            exact hf
        refine ⟨addRefreshToken (isRefreshTokenBlacklisted st tt n).2 tt n, ?_, ?_, ?_⟩
        · simp [hrev]
        · rw [addRefreshToken_rows, isRefreshTokenBlacklisted_rows]
        · rw [addRefreshToken_up, isRefreshTokenBlacklisted_cache]

/-- C1: reuse containment. For a refresh token whose signature verifies,
if its hash is reported blacklisted (the grace-aware check), or its row is
missing from the store, or its row is already revoked, then the call
rejects with `TOKEN_REUSE_DETECTED`, every session row of the token's user
is transitioned to revoked, each previously active (unexpired) session
token of that user gains a live durable blacklist marker in the cache, a
`TOKEN_REUSE_DETECTED` audit event is recorded, and afterwards any refresh
attempt with any token all of whose rows belong to that user rejects. -/
theorem c1_reuse_detection_contains (st : St) (tt : TokText) (nowMs jA jR : Nat)
    (rid : String) (d : Tok)
    (hver : verifyRefreshToken tt nowMs = .ok d)
    (hup : st.cache.up = true)
    (htrig : (isRefreshTokenBlacklisted st tt nowMs).1 = true ∨
      (∀ r, st.rows.find? (fun x => decide (x.token = tt)) = some r →
        r.isRevoked = true))
    (httl : ∀ r ∈ st.rows, r.userId = d.userId → r.isRevoked = false →
      getTtlFromToken r.token nowMs ≠ 0) :
    (refreshTokens st tt nowMs jA jR rid).1 = .error .tokenReuseDetected ∧
    (∀ r ∈ (refreshTokens st tt nowMs jA jR rid).2.rows, r.userId = d.userId →
      r.isRevoked = true) ∧
    (∀ r ∈ st.rows, r.userId = d.userId → r.isRevoked = false →
      cacheHasLive (refreshTokens st tt nowMs jA jR rid).2.cache
        (.refreshBlack (hashToken r.token)) (nowMs / 1000)) ∧
    AuditEvent.mk "TOKEN_REUSE_DETECTED" (some d.userId) ∈
      (refreshTokens st tt nowMs jA jR rid).2.audit ∧
    (∀ tt2 n2 jA2 jR2 rid2,
      (∀ r ∈ (refreshTokens st tt nowMs jA jR rid).2.rows, r.token = tt2 →
        r.userId = d.userId) →
      ∃ e, (refreshTokens (refreshTokens st tt nowMs jA jR rid).2 tt2 n2
        jA2 jR2 rid2).1 = .error e) := by
  obtain ⟨stMid, heq, hrowsM, hupM⟩ := refreshPhase1_reuse st tt nowMs d hver htrig
  have hrt : refreshTokens st tt nowMs jA jR rid =
      (.error .tokenReuseDetected,
       { revokeAllUserTokens stMid d.userId none none nowMs with
           audit := (revokeAllUserTokens stMid d.userId none none nowMs).audit ++
             [⟨"TOKEN_REUSE_DETECTED", some d.userId⟩] }) := by
    unfold refreshTokens
    rw [heq]
  have hrevoked : ∀ r ∈ (refreshTokens st tt nowMs jA jR rid).2.rows,
      r.userId = d.userId → r.isRevoked = true := by
    rw [hrt]
    exact revokeAll_rows_revoked stMid d.userId none none nowMs
  refine ⟨by rw [hrt], hrevoked, ?_, ?_, ?_⟩
  · intro r hr hru hrev
    rw [hrt]
    show cacheHasLive (revokeAllUserTokens stMid d.userId none none nowMs).cache
      (.refreshBlack (hashToken r.token)) (nowMs / 1000)
    refine revokeAll_blacklists stMid d.userId none none nowMs
      (by rw [hupM]; exact hup) r ?_ hru hrev (httl r hr hru hrev)
    rw [hrowsM]
    exact hr
  · rw [hrt]
    simp
  · intro tt2 n2 jA2 jR2 rid2 hOwn
    cases hp2 : refreshPhase1 (refreshTokens st tt nowMs jA jR rid).2 tt2 n2 with
    | mk res2 stX =>
      cases res2 with
      | error e =>
          refine ⟨e, ?_⟩
          rw [refreshTokens_error_of_phase1 _ tt2 n2 jA2 jR2 rid2 e stX hp2]
      | ok ctx =>
          exfalso
          obtain ⟨hfind, hnrev⟩ := refreshPhase1_ok_inv _ tt2 n2 ctx stX hp2
          have hmem := List.mem_of_find?_eq_some hfind
          have hpred := List.find?_some hfind
          have htok : ctx.stored.token = tt2 := of_decide_eq_true hpred
          have huid := hOwn ctx.stored hmem htok
          have := hrevoked ctx.stored hmem huid
          rw [this] at hnrev
          cases hnrev

/-- Witness for C1: presenting the already-blacklisted `tokA` against
`stB` trips every containment effect. -/
theorem c1_witness :
    verifyRefreshToken Sample.rawA Sample.t1 = .ok Sample.tokA ∧
    (isRefreshTokenBlacklisted Sample.stB Sample.rawA Sample.t1).1 = true ∧
    (refreshTokens Sample.stB Sample.rawA Sample.t1 11 12 "rX").1 =
      .error .tokenReuseDetected ∧
    (∀ r ∈ (refreshTokens Sample.stB Sample.rawA Sample.t1 11 12 "rX").2.rows,
      r.userId = "u1" → r.isRevoked = true) ∧
    AuditEvent.mk "TOKEN_REUSE_DETECTED" (some "u1") ∈
      (refreshTokens Sample.stB Sample.rawA Sample.t1 11 12 "rX").2.audit := by
  have h := c1_reuse_detection_contains Sample.stB Sample.rawA Sample.t1 11 12 "rX"
    Sample.tokA (by decide) (by decide) (Or.inl (by decide)) (by decide)
  exact ⟨by decide, by decide, h.1, h.2.1, h.2.2.2.1⟩

end Auth
